import Mathlib

/-!
Shallow embedding of `azdev/operations/style.py` (azure-cli-dev-tools).

The Python module orchestrates two external tools (pylint, flake8) over a
partitioned table of module paths.  Externals (path-table discovery, the
git-diff filter, the subprocess runner, the filesystem glob, the azdev
config store, the processor count) are modelled as fields of an `Env`
record; everything else is translated statement by statement from the
source.  Python `int` is `Int`; an optional attribute is `Option`;
exceptions become an explicit error type.
-/

namespace AzdevStyle

/-- A Python error object as `_combine_command_result` and `check_style`
see it: `message` is `none` when the object has no `message` attribute
(reading it raises `AttributeError`), `strRep` is its `str(...)`
conversion, `output` is the captured output attribute (already decoded,
as `check_style` only ever uses `error.output.decode('utf-8')`). -/
structure PyError where
  message : Option String
  strRep : String
  output : String
deriving Repr, DecidableEq, Inhabited

/-- Embeds `knack.util.CommandResultItem`: constructed as `CommandResultItem(None)`
gives `result=None`, `error=None`, `exit_code=0`.  A `result` of `some ""`
is distinct from `none` but both are falsy in Python. -/
structure CommandResultItem where
  exit_code : Int
  error : Option PyError
  result : Option String
deriving Repr, DecidableEq, Inhabited

/-- Python truthiness of the `result` attribute (`None` and `''` are falsy). -/
def resultTruthy : Option String → Bool
  | none => false
  | some s => s != ""

/-- The inner `apply_result` of `_combine_command_result`, folding one
optional item into the accumulator.  `item` is `None` exactly when a path
group was empty and its `run` returned `None`.  Mirrors the source:
the exit codes are summed; on the first error the accumulator adopts the
error object and `setattr(..., 'message', '')` overwrites its message
with the empty string; a later error appends its `message` (or its
`str(...)` conversion when the attribute is absent, the `AttributeError`
branch); result text is concatenated under Python truthiness. -/
def apply_result (final : CommandResultItem) (item : Option CommandResultItem) :
    CommandResultItem :=
  match item with
  | none => final
  | some it =>
    let f1 : CommandResultItem := { final with exit_code := final.exit_code + it.exit_code }
    let f2 : CommandResultItem :=
      match it.error with
      | none => f1
      | some e =>
        match f1.error with
        | some fe =>
          -- within `_combine_command_result` the accumulator's error always
          -- has a `message` attribute (it was set on adoption), so the read
          -- `final_result.error.message` is total; `getD` records that.
          let appended :=
            match e.message with
            | some m => fe.message.getD "" ++ m
            | none => fe.message.getD "" ++ e.strRep
          { f1 with error := some { fe with message := some appended } }
        | none =>
          { f1 with error := some { e with message := some "" } }
    match it.result with
    | none => f2
    | some r =>
      if r != "" then
        match f2.result with
        | some fr =>
          if fr != "" then { f2 with result := some (fr ++ r) }
          else { f2 with result := some r }
        | none => { f2 with result := some r }
      else f2

/-- Embeds `_combine_command_result(cli_result, ext_result)`: folds the two
optional results into `CommandResultItem(None)`, first the cli one. -/
def _combine_command_result (cli_result ext_result : Option CommandResultItem) :
    CommandResultItem :=
  apply_result (apply_result ⟨0, none, none⟩ cli_result) ext_result

/-- Posix `os.path.join` on two components, as the source uses it. -/
def os_path_join (a b : String) : String :=
  if b.startsWith "/" then b
  else if a == "" || a.endsWith "/" then a ++ b
  else a ++ "/" ++ b

/-- The tail component of `os.path.split` (everything after the last slash). -/
def os_path_tail (p : String) : String :=
  (p.splitOn "/").getLastD ""

/-- Python's `needle in haystack` substring test. -/
def containsSub (haystack needle : String) : Bool :=
  (haystack.splitOn needle).length ≥ 2

/-- The azdev settings store as `_config_file_path` reads it:
`get('cli','repo_path')` (empty = unset/falsy), `get('ext','repo_paths')`
(a whitespace-separated list), and `get_azdev_config_dir()`. -/
structure AzdevConfig where
  cli_repo_path : String
  ext_repo_paths : String
  config_dir : String
deriving Repr, DecidableEq, Inhabited

/-- The extension repo path selected by `_config_file_path`:
`next(filter(lambda x: 'azure-cli-extension' in x, repo_paths.split()))`,
with `StopIteration` giving the falsy `[]` (here `none`). -/
def ext_repo_selected (cfg : AzdevConfig) : Option String :=
  let words := (cfg.ext_repo_paths.split (fun c => c.isWhitespace)).filter
    (fun x => x != "")
  (words.filter (fun x => containsSub x "azure-cli-extension")).head?

/-- Embeds `_config_file_path(style_type)`: rejects any `style_type` other than
`pylint`/`flake8` with a `ValueError`; then, per group, joins a configured
repo path with the tool's fixed config-file name, falling back to the
bundled default under `<config_dir>/config_files`. -/
def _config_file_path (cfg : AzdevConfig) (style_type : String) :
    Except String (String × String) :=
  let cli_repo_path := cfg.cli_repo_path
  let ext_repo_path : Option String := ext_repo_selected cfg
  if !(style_type == "pylint" || style_type == "flake8") then
    Except.error "style_tyle value allows only: pylint, flake8."
  else
    let config_file := if style_type == "pylint" then "pylintrc" else ".flake8"
    let default_cli := if style_type == "pylint" then "cli_pylintrc" else "cli.flake8"
    let default_ext := if style_type == "pylint" then "ext_pylintrc" else "ext.flake8"
    let cli_config_path :=
      if cli_repo_path != "" then os_path_join cli_repo_path config_file
      else os_path_join (os_path_join cfg.config_dir "config_files") default_cli
    let ext_config_path :=
      match ext_repo_path with
      | some p => os_path_join p config_file
      | none => os_path_join (os_path_join cfg.config_dir "config_files") default_ext
    Except.ok (cli_config_path, ext_config_path)

/-- The `{core, mod, ext}` path table returned by `get_path_table`:
each partition maps module/extension names to filesystem paths
(association lists standing for Python dicts). -/
structure PathTable where
  core : List (String × String)
  mod : List (String × String)
  ext : List (String × String)
deriving Repr, DecidableEq, Inhabited

/-- A Python exception escaping `run_pylint`/`_run_pep8`. -/
inductive RunErr where
  | indexError
  | valueError (msg : String)
deriving Repr, DecidableEq

/-- The external collaborators of `check_style`, fixed for one invocation:
whether `require_azure_cli()` succeeds, `get_path_table`, the
`filter_by_git_diff` closure (its git source/target/repo arguments are
baked in), the `py_cmd` subprocess runner (command string to result),
the filesystem `glob` (pattern to matches), `multiprocessing.cpu_count()`
and the settings store. -/
structure Env where
  azureCliInstalled : Bool
  getPathTable : Option (List String) → PathTable
  gitFilter : PathTable → PathTable
  pyCmd : String → CommandResultItem
  globMatches : String → List String
  cpuCount : Nat
  config : AzdevConfig

/-- Modelled from the spec: `EXTENSION_PREFIX` is imported from
`azdev.utilities`, which is not part of this source tree; the spec calls
it "a fixed extension-name prefix".  The azdev extension packaging
convention is the `azext_` package prefix; no claim depends on the
concrete value. -/
def EXTENSION_PREFIX_const : String := "azext_"

/-- The glob argument for one extension path:
`os.path.join(path, glob_pattern)`, where `glob_pattern` is the prefix
constant followed by a wildcard star (the one-component join and
`normcase` are identities on posix)
(`normcase` and the one-component `join` are identities on posix). -/
def ext_glob_input (path : String) : String :=
  os_path_join path (EXTENSION_PREFIX_const ++ "*")

/-- Embeds `get_core_module_paths`: for each core path, re-append the segments of
the hyphen-split final path component (rebuilding the nested package
directory from the hyphenated distribution name). -/
def get_core_module_paths (modules : PathTable) : List String :=
  modules.core.map (fun kv =>
    ((os_path_tail kv.2).splitOn "-").foldl os_path_join kv.2)

/-- The ext-path loop of `run_pylint`: `glob(...)[0]` per extension entry,
left to right; an empty match list raises `IndexError` at that entry,
before any later glob runs. -/
def ext_paths_list (env : Env) : List (String × String) → Except RunErr (List String)
  | [] => Except.ok []
  | kv :: tl =>
    match env.globMatches (ext_glob_input kv.2) with
    | [] => Except.error RunErr.indexError
    | m :: _ => (ext_paths_list env tl).map (fun rest => m :: rest)

/-- The pylint command string built by the inner `run` of `run_pylint`. -/
def pylint_command (paths : List String) (rcfile : String) (cpu : Nat)
    (checkers : Option (List String)) (disable_all : Bool)
    (enable : Option (List String)) : String :=
  let command := "pylint " ++ String.intercalate " " paths ++ " --rcfile=" ++ rcfile
      ++ " --jobs " ++ toString cpu
  let command :=
    match checkers with
    | some cs => command ++ " --load-plugins " ++ String.intercalate "," cs
    | none => command
  let command := if disable_all then command ++ " --disable=all" else command
  match enable with
  | some en => command ++ " --enable " ++ String.intercalate "," en
  | none => command

/-- The inner `run` of `run_pylint`: an empty path list yields `None` and
no invocation; otherwise one `py_cmd` call.  The second component records
the commands handed to the subprocess runner. -/
def pylint_run_group (env : Env) (paths : List String) (rcfile : String)
    (checkers : Option (List String)) (disable_all : Bool)
    (enable : Option (List String)) : Option CommandResultItem × List String :=
  if paths.isEmpty then (none, [])
  else
    let command := pylint_command paths rcfile env.cpuCount checkers disable_all enable
    (some (env.pyCmd command), [command])

/-- Embeds `run_pylint(modules, checkers, env, disable_all, enable)`: core paths
transformed by `get_core_module_paths` plus the command-module paths; one
glob expansion per extension path (raising `IndexError` on no match);
config files resolved for `pylint`; one invocation per non-empty group;
results combined with `_combine_command_result`. -/
def run_pylint (env : Env) (modules : PathTable) (checkers : Option (List String))
    (disable_all : Bool) (enable : Option (List String)) :
    Except RunErr (CommandResultItem × List String) :=
  let cli_paths := get_core_module_paths modules ++ modules.mod.map Prod.snd
  match ext_paths_list env modules.ext with
  | Except.error e => Except.error e
  | Except.ok ext_paths =>
    match _config_file_path env.config "pylint" with
    | Except.error m => Except.error (RunErr.valueError m)
    | Except.ok rcfiles =>
      let cli := pylint_run_group env cli_paths rcfiles.1 checkers disable_all enable
      let ext := pylint_run_group env ext_paths rcfiles.2 checkers disable_all enable
      Except.ok (_combine_command_result cli.1 ext.1, cli.2 ++ ext.2)

/-- The flake8 command string built by the inner `run` of `_run_pep8`. -/
def flake8_command (paths : List String) (rcfile : String) : String :=
  "flake8 --statistics --append-config=" ++ rcfile ++ " " ++ String.intercalate " " paths

/-- The inner `run` of `_run_pep8`: an empty path list yields `None` and
no invocation; otherwise one `py_cmd` call. -/
def pep8_run_group (env : Env) (paths : List String) (rcfile : String) :
    Option CommandResultItem × List String :=
  if paths.isEmpty then (none, [])
  else
    let command := flake8_command paths rcfile
    (some (env.pyCmd command), [command])

/-- Embeds `_run_pep8(modules)`: core and command-module paths untransformed,
extension paths untransformed; config files resolved for `flake8`; one
invocation per non-empty group; results combined. -/
def _run_pep8 (env : Env) (modules : PathTable) :
    Except RunErr (CommandResultItem × List String) :=
  let cli_paths := modules.core.map Prod.snd ++ modules.mod.map Prod.snd
  let ext_paths := modules.ext.map Prod.snd
  match _config_file_path env.config "flake8" with
  | Except.error m => Except.error (RunErr.valueError m)
  | Except.ok rcfiles =>
    let cli := pep8_run_group env cli_paths rcfiles.1
    let ext := pep8_run_group env ext_paths rcfiles.2
    Except.ok (_combine_command_result cli.1 ext.1, cli.2 ++ ext.2)

/-- The path table as it stands right before `filter_by_git_diff` in
`check_style` (source lines 29-55): the `CLI`/`EXT` sentinels normalise
`modules` to `None` for `get_path_table`, the two non-module core entries
(`azure-cli-nspkg`, `azure-cli-command_modules-nspkg`) are popped, then
the sentinel clears the other partitions (`ext` for CLI-only; `mod` and
`core` for EXT-only). -/
def cleared_table (env : Env) (modules : Option (List String)) : PathTable :=
  let cli_only := modules == some ["CLI"]
  let ext_only := modules == some ["EXT"]
  let include_only := if cli_only || ext_only then none else modules
  let selected := env.getPathTable include_only
  let selected := { selected with
    core := selected.core.filter (fun kv =>
      kv.1 != "azure-cli-nspkg" && kv.1 != "azure-cli-command_modules-nspkg") }
  let selected := if cli_only then { selected with ext := [] } else selected
  if ext_only then { selected with mod := [], core := [] } else selected

/-- How an invocation of `check_style` ends: `sys.exit(exit_code_sum)`,
an explicit `CLIError` raise, or a Python exception escaping from
`run_pylint` (`IndexError`) / `_config_file_path` (`ValueError`). -/
inductive Outcome where
  | exited (code : Int)
  | cliError (msg : String)
  | indexError
  | valueError (msg : String)
deriving Repr, DecidableEq

/-- Everything observable about one `check_style` invocation: the lines
handed to `display` (and `heading`), the lines handed to `logger.error`,
the commands handed to `py_cmd`, and how the run ended. -/
structure CheckStyleRun where
  displayed : List String
  logged : List String
  invoked : List String
  outcome : Outcome
deriving Repr, DecidableEq

/-- Accumulator for the two tool phases of `check_style`. -/
structure Phase where
  displayed : List String
  logged : List String
  invoked : List String
  sum : Int
deriving Repr, DecidableEq

/-- The pylint reporting block of `check_style` (source lines 79-87): the
exit code joins the sum; on error the source displays `'Pylint: PASSED'`
(sic, line 83), then logs the decoded error output and `'Pylint: FAILED\n'`;
with no error it displays `'Pylint: PASSED\n'`. -/
def report_pylint (st : Phase) (res : CommandResultItem) (cmds : List String) : Phase :=
  let st := { st with invoked := st.invoked ++ cmds, sum := st.sum + res.exit_code }
  match res.error with
  | some e =>
    { st with displayed := st.displayed ++ ["Pylint: PASSED"],
              logged := st.logged ++ [e.output, "Pylint: FAILED\n"] }
  | none => { st with displayed := st.displayed ++ ["Pylint: PASSED\n"] }

/-- The flake8 reporting block of `check_style` (source lines 90-97). -/
def report_pep8 (st : Phase) (res : CommandResultItem) (cmds : List String) : Phase :=
  let st := { st with invoked := st.invoked ++ cmds, sum := st.sum + res.exit_code }
  match res.error with
  | some e => { st with logged := st.logged ++ [e.output, "Flake8: FAILED\n"] }
  | none => { st with displayed := st.displayed ++ ["Flake8: PASSED\n"] }

/-- Embeds `check_style(modules, pylint, pep8, ...)`.  The git arguments live
inside `env.gitFilter`.  Order as in the source: heading; sentinel
normalisation, `get_path_table` and the two pops (all side-effect-free,
folded into `cleared_table`); the pylint pre-flight `require_azure_cli`,
raising the usage `CLIError` when the CLI is missing; sentinel clearing
and `filter_by_git_diff`; the `No modules selected.` usage error when all
partitions are empty; the module/extension display lines; defaulting both
flags to true when neither was passed; then the two tool phases and
`sys.exit` on the exit-code sum. -/
def check_style (env : Env) (modules : Option (List String)) (pylint pep8 : Bool) :
    CheckStyleRun :=
  let displayed0 : List String := ["Style Check"]
  if pylint && !env.azureCliInstalled then
    { displayed := displayed0, logged := [], invoked := [],
      outcome := Outcome.cliError "usage error: --pylint requires Azure CLI to be installed." }
  else
    let selected := env.gitFilter (cleared_table env modules)
    if selected.core.isEmpty && selected.mod.isEmpty && selected.ext.isEmpty then
      { displayed := displayed0, logged := [], invoked := [],
        outcome := Outcome.cliError "No modules selected." }
    else
      let mod_names := selected.mod.map Prod.fst ++ selected.core.map Prod.fst
      let ext_names := selected.ext.map Prod.fst
      let displayed1 := displayed0
        ++ (if !mod_names.isEmpty then
              ["Modules: " ++ String.intercalate ", " mod_names ++ "\n"] else [])
        ++ (if !ext_names.isEmpty then
              ["Extensions: " ++ String.intercalate ", " ext_names ++ "\n"] else [])
      let flags := if !(pylint || pep8) then (true, true) else (pylint, pep8)
      let st0 : Phase := { displayed := displayed1, logged := [], invoked := [], sum := 0 }
      let afterPylint : Except RunErr Phase :=
        if flags.1 then
          (run_pylint env selected none false none).map (fun rc => report_pylint st0 rc.1 rc.2)
        else Except.ok st0
      match afterPylint with
      | Except.error RunErr.indexError =>
        { displayed := displayed1, logged := [], invoked := [], outcome := Outcome.indexError }
      | Except.error (RunErr.valueError m) =>
        { displayed := displayed1, logged := [], invoked := [], outcome := Outcome.valueError m }
      | Except.ok st1 =>
        let afterPep8 : Except RunErr Phase :=
          if flags.2 then
            (_run_pep8 env selected).map (fun rc => report_pep8 st1 rc.1 rc.2)
          else Except.ok st1
        match afterPep8 with
        | Except.error RunErr.indexError =>
          { displayed := st1.displayed, logged := st1.logged, invoked := st1.invoked,
            outcome := Outcome.indexError }
        | Except.error (RunErr.valueError m) =>
          { displayed := st1.displayed, logged := st1.logged, invoked := st1.invoked,
            outcome := Outcome.valueError m }
        | Except.ok st2 =>
          { displayed := st2.displayed, logged := st2.logged, invoked := st2.invoked,
            outcome := Outcome.exited st2.sum }

/-! ### The field-wise algebra of `_combine_command_result` -/

/-- What `apply_result` does to the accumulator's error field. -/
def combine_error : Option PyError → Option PyError → Option PyError
  | fe, none => fe
  | none, some e => some { e with message := some "" }
  | some fe, some e =>
    some { fe with message := some (fe.message.getD "" ++
      (match e.message with | some m => m | none => e.strRep)) }

/-- What `apply_result` does to the accumulator's result field. -/
def combine_result : Option String → Option String → Option String
  | fr, none => fr
  | fr, some r =>
    if r != "" then
      match fr with
      | some fr' => if fr' != "" then some (fr' ++ r) else some r
      | none => some r
    else fr

theorem str_empty_append (s : String) : "" ++ s = s := rfl

theorem apply_result_none (f : CommandResultItem) : apply_result f none = f := rfl

theorem apply_result_some (f it : CommandResultItem) :
    apply_result f (some it) =
      { exit_code := f.exit_code + it.exit_code,
        error := combine_error f.error it.error,
        result := combine_result f.result it.result } := by
  obtain ⟨fec, ferr, fres⟩ := f
  obtain ⟨iec, ierr, ires⟩ := it
  cases ierr <;> cases ferr <;> cases ires <;>
    simp [apply_result, combine_error, combine_result] <;>
    (repeat' split) <;> simp_all

theorem combine_some_some (r1 r2 : CommandResultItem) :
    _combine_command_result (some r1) (some r2) =
      { exit_code := r1.exit_code + r2.exit_code,
        error := combine_error (combine_error none r1.error) r2.error,
        result := combine_result (combine_result none r1.result) r2.result } := by
  simp [_combine_command_result, apply_result_some]

/-! ### Claims about `_combine_command_result` (C2, C5, C9) -/

/-- C5: `_combine_command_result` sums the exit codes of two present
results; in particular combining a result with exit code 0 and one with
exit code 1 (both with no error and no result text) yields exit code 1. -/
theorem combine_exit_code_sum :
    (∀ r1 r2 : CommandResultItem,
      (_combine_command_result (some r1) (some r2)).exit_code
        = r1.exit_code + r2.exit_code)
    ∧ (_combine_command_result (some ⟨0, none, none⟩)
        (some ⟨1, none, none⟩)).exit_code = 1 := by
  refine ⟨fun r1 r2 => ?_, by decide⟩
  simp [combine_some_some]

/-- C2 counterexample: combining a result whose error message is `"A"`
with one whose error message is `"B"` yields the combined message `"B"`,
not the claimed concatenation `"AB"`: the first error's text is
overwritten with the empty string when the error object is adopted. -/
theorem combine_error_concat_counterexample :
    ((_combine_command_result
        (some ⟨1, some ⟨some "A", "Astr", "Aout"⟩, none⟩)
        (some ⟨1, some ⟨some "B", "Bstr", "Bout"⟩, none⟩)).error.map PyError.message
      = some (some "B"))
    ∧ ((_combine_command_result
        (some ⟨1, some ⟨some "A", "Astr", "Aout"⟩, none⟩)
        (some ⟨1, some ⟨some "B", "Bstr", "Bout"⟩, none⟩)).error.map PyError.message
      ≠ some (some "AB")) := by
  decide

/-- C2 amended: when both results carry an error, the combined result's
error is the first result's error object with its `message` attribute
overwritten: adoption replaces the first message by the empty string, and
the second result's error message (or its string conversion when the
`message` attribute is absent) is then appended — so only the second
result's error text survives, the first result's error text is lost. -/
theorem combine_error_second_text_only (r1 r2 : CommandResultItem) (e1 e2 : PyError)
    (h1 : r1.error = some e1) (h2 : r2.error = some e2) :
    (_combine_command_result (some r1) (some r2)).error =
      some { e1 with message := some (match e2.message with
        | some m => m
        | none => e2.strRep) } := by
  cases hm : e2.message <;>
    simp [combine_some_some, h1, h2, combine_error, hm, str_empty_append]

/-- C2 amended, witness: error messages `"A"` then an error without a
`message` attribute whose string conversion is `"Bstr"` combine to the
message `"Bstr"` carried on the first error object. -/
theorem combine_error_second_text_only_witness :
    (⟨1, some ⟨some "A", "Astr", "Aout"⟩, none⟩ : CommandResultItem).error
        = some ⟨some "A", "Astr", "Aout"⟩
    ∧ (_combine_command_result
        (some ⟨1, some ⟨some "A", "Astr", "Aout"⟩, none⟩)
        (some ⟨0, some ⟨none, "Bstr", "Bout"⟩, none⟩)).error
      = some ⟨some "Bstr", "Astr", "Aout"⟩ :=
  ⟨rfl, combine_error_second_text_only
    ⟨1, some ⟨some "A", "Astr", "Aout"⟩, none⟩
    ⟨0, some ⟨none, "Bstr", "Bout"⟩, none⟩
    ⟨some "A", "Astr", "Aout"⟩ ⟨none, "Bstr", "Bout"⟩ rfl rfl⟩

/-- C9 counterexample: combining an absent result with a result `r` whose
error message is `"X"` does not leave `r`'s error intact — the message
attribute is overwritten with the empty string — so the absent result is
not an identity for `_combine_command_result` in the error component. -/
theorem combine_none_identity_counterexample :
    (_combine_command_result none
        (some ⟨2, some ⟨some "X", "Xstr", "Xout"⟩, some "text"⟩)).error
      ≠ some (⟨some "X", "Xstr", "Xout"⟩ : PyError) := by
  decide

/-- C9 amended: an empty path group yields no tool invocation in either
runner and its absent result contributes nothing to the exit code and
result text: combining a missing result with `r` (on either side)
preserves `r`'s exit code and result text, but keeps `r`'s error object
with its `message` attribute overwritten by the empty string — a full
identity only when `r` carries no error. -/
theorem combine_none_quasi_identity (env : Env) (rcfile : String)
    (checkers : Option (List String)) (da : Bool) (en : Option (List String))
    (r : CommandResultItem) :
    pylint_run_group env [] rcfile checkers da en = (none, [])
    ∧ pep8_run_group env [] rcfile = (none, [])
    ∧ (_combine_command_result none (some r)).exit_code = r.exit_code
    ∧ (_combine_command_result none (some r)).result.getD ""
        = r.result.getD ""
    ∧ (_combine_command_result none (some r)).error
        = r.error.map (fun e => { e with message := some "" })
    ∧ _combine_command_result (some r) none = _combine_command_result none (some r) := by
  refine ⟨rfl, rfl, ?_, ?_, ?_, rfl⟩
  · simp [_combine_command_result, apply_result_none, apply_result_some]
  · cases hr : r.result with
    | none =>
      simp [_combine_command_result, apply_result_none, apply_result_some,
        combine_result, hr]
    | some s =>
      by_cases hs : s = "" <;>
        simp [_combine_command_result, apply_result_none, apply_result_some,
          combine_result, hr, hs]
  · cases he : r.error <;>
      simp [_combine_command_result, apply_result_none, apply_result_some,
        combine_error, he]

/-! ### Sample environments for concrete evaluation -/

/-- An empty path table. -/
def emptyTable : PathTable := ⟨[], [], []⟩

/-- A path table with one command module. -/
def oneModTable : PathTable :=
  ⟨[], [("acr", "/cli/src/command_modules/azure-cli-acr")], []⟩

/-- A path table with one extension. -/
def oneExtTable : PathTable := ⟨[], [], [("hello", "/ext/src/hello")]⟩

/-- A subprocess result with exit code 0 and neither error nor output. -/
def okCmd : CommandResultItem := ⟨0, none, none⟩

/-- Azure CLI absent, empty path table, all subprocesses pass. -/
def envNoCliEmpty : Env :=
  { azureCliInstalled := false, getPathTable := fun _ => emptyTable,
    gitFilter := fun t => t, pyCmd := fun _ => okCmd,
    globMatches := fun _ => [], cpuCount := 1, config := ⟨"", "", "cfg"⟩ }

/-- Azure CLI installed, empty path table. -/
def envCliEmpty : Env := { envNoCliEmpty with azureCliInstalled := true }

/-- Azure CLI absent, one command module, all subprocesses pass. -/
def envNoCliOneMod : Env := { envNoCliEmpty with getPathTable := fun _ => oneModTable }

/-- Azure CLI installed, one command module, all subprocesses pass. -/
def envCliOneMod : Env := { envNoCliOneMod with azureCliInstalled := true }

/-- A failing pylint subprocess result: exit code 1, error without a
`message` attribute, captured output `lint-output`. -/
def pylintFailResult : CommandResultItem :=
  ⟨1, some ⟨none, "CalledProcessError", "lint-output"⟩, none⟩

/-- Azure CLI installed, one command module; pylint commands (leading
`p` of `pylint ...`) fail with `pylintFailResult`, flake8 commands pass. -/
def envPylintFails : Env :=
  { envCliOneMod with
    pyCmd := fun c =>
      if c.data.headD ' ' == 'p' then pylintFailResult else okCmd }

/-- Azure CLI installed, one extension whose directory has no glob match. -/
def envNoGlob : Env := { envCliEmpty with getPathTable := fun _ => oneExtTable }

/-! ### Claims about selection and pre-flight (C6, C8) -/

/-- C6: with module list `["CLI"]` the `ext` partition of the table handed
to the git-diff filter is empty; with `["EXT"]` both `core` and `mod` are
empty; and in both cases the core partition holds neither
`azure-cli-nspkg` nor `azure-cli-command_modules-nspkg`
(`cleared_table` is, by construction in `check_style`, the table
immediately before `filter_by_git_diff` is applied). -/
theorem sentinel_clearing (env : Env) :
    (cleared_table env (some ["CLI"])).ext = []
    ∧ (cleared_table env (some ["EXT"])).mod = []
    ∧ (cleared_table env (some ["EXT"])).core = []
    ∧ (cleared_table env (some ["CLI"])).core.all (fun kv =>
        kv.1 != "azure-cli-nspkg" && kv.1 != "azure-cli-command_modules-nspkg") = true
    ∧ (cleared_table env (some ["EXT"])).core.all (fun kv =>
        kv.1 != "azure-cli-nspkg" && kv.1 != "azure-cli-command_modules-nspkg") = true := by
  have h : cleared_table env (some ["CLI"]) =
      { core := (env.getPathTable none).core.filter (fun kv =>
          kv.1 != "azure-cli-nspkg" && kv.1 != "azure-cli-command_modules-nspkg"),
        mod := (env.getPathTable none).mod,
        ext := [] } := rfl
  refine ⟨rfl, rfl, rfl, ?_, rfl⟩
  rw [h]
  exact List.all_eq_true.2 (fun kv hkv => (List.mem_filter.1 hkv).2)

/-- C8: when linting is requested with `--pylint` and the Azure CLI is not
installed, `check_style` fails with the usage `CLIError` right after the
heading: nothing further is displayed or logged and no command reaches the
subprocess runner. -/
theorem pylint_preflight_usage_error (env : Env) (modules : Option (List String))
    (p8 : Bool) (h : env.azureCliInstalled = false) :
    check_style env modules true p8 =
      { displayed := ["Style Check"], logged := [], invoked := [],
        outcome := Outcome.cliError
          "usage error: --pylint requires Azure CLI to be installed." } := by
  simp [check_style, h]

/-- C8 witness: the pre-flight failure at a concrete environment. -/
theorem pylint_preflight_usage_error_witness :
    envNoCliEmpty.azureCliInstalled = false
    ∧ check_style envNoCliEmpty none true false =
      { displayed := ["Style Check"], logged := [], invoked := [],
        outcome := Outcome.cliError
          "usage error: --pylint requires Azure CLI to be installed." } :=
  ⟨rfl, pylint_preflight_usage_error envNoCliEmpty none false rfl⟩

/-! ### Claims about `check_style` failure modes (C1, C4) -/

/-- C1 counterexample: an invocation with `--pylint`, the Azure CLI
missing, and every partition empty after clearing and filtering fails with
the pylint usage error — the pre-flight check fires before the module
check — not with `No modules selected.` as the claim states. -/
theorem no_modules_error_counterexample :
    envNoCliEmpty.gitFilter (cleared_table envNoCliEmpty none) = emptyTable
    ∧ (check_style envNoCliEmpty none true false).outcome
        = Outcome.cliError "usage error: --pylint requires Azure CLI to be installed."
    ∧ (check_style envNoCliEmpty none true false).outcome
        ≠ Outcome.cliError "No modules selected." := by
  refine ⟨rfl, rfl, by decide⟩

/-- C1 amended: provided the pylint pre-flight does not fail first (the
pylint flag is off or the Azure CLI is installed), an invocation whose
three partitions are all empty after sentinel clearing and git-diff
filtering fails with the usage error `No modules selected.`, and no
command reaches the subprocess runner. -/
theorem no_modules_selected_error (env : Env) (modules : Option (List String))
    (pl p8 : Bool)
    (hpre : pl = false ∨ env.azureCliInstalled = true)
    (hempty : env.gitFilter (cleared_table env modules) = ⟨[], [], []⟩) :
    check_style env modules pl p8 =
      { displayed := ["Style Check"], logged := [], invoked := [],
        outcome := Outcome.cliError "No modules selected." } := by
  have hb : (pl && !env.azureCliInstalled) = false := by
    rcases hpre with h | h <;> simp [h]
  simp [check_style, hb, hempty]

/-- C1 amended, witness: empty selection with the Azure CLI installed. -/
theorem no_modules_selected_error_witness :
    (true = false ∨ envCliEmpty.azureCliInstalled = true)
    ∧ envCliEmpty.gitFilter (cleared_table envCliEmpty none) = (⟨[], [], []⟩ : PathTable)
    ∧ check_style envCliEmpty none true true =
      { displayed := ["Style Check"], logged := [], invoked := [],
        outcome := Outcome.cliError "No modules selected." } :=
  ⟨Or.inr rfl, rfl,
    no_modules_selected_error envCliEmpty none true true (Or.inr rfl) rfl⟩

/-- C4 counterexample: with the Azure CLI missing, passing neither flag
runs both tools and exits 0, while passing both flags explicitly fails
with the pylint usage error before any subprocess — the two invocations
are observably different. -/
theorem flags_default_equiv_counterexample :
    check_style envNoCliOneMod none false false
      ≠ check_style envNoCliOneMod none true true := by
  decide

/-- C4 amended: provided the Azure CLI is installed (so the pre-flight
check triggered by the explicit pylint flag succeeds silently), invoking
`check_style` with both flags false is observably identical to invoking
it with both flags true: both checks run either way. -/
theorem flags_default_equiv (env : Env) (modules : Option (List String))
    (h : env.azureCliInstalled = true) :
    check_style env modules false false = check_style env modules true true := by
  simp [check_style, h]

/-- C4 amended, witness: the equivalence at a concrete environment. -/
theorem flags_default_equiv_witness :
    envCliOneMod.azureCliInstalled = true
    ∧ check_style envCliOneMod none false false
        = check_style envCliOneMod none true true :=
  ⟨rfl, flags_default_equiv envCliOneMod none rfl⟩

/-! ### Claim about `_config_file_path` (C7) -/

/-- C7: for each supported tool identifier, `_config_file_path` returns,
per path group, the configured repository path joined with that tool's
fixed config-file name when a repository path is configured, and the
bundled default file under `<config_dir>/config_files` otherwise; any
other identifier yields the `ValueError`. -/
theorem config_file_path_resolution (cfg : AzdevConfig) (t : String) :
    (_config_file_path cfg "pylint" = Except.ok
      ((if cfg.cli_repo_path != "" then os_path_join cfg.cli_repo_path "pylintrc"
        else os_path_join (os_path_join cfg.config_dir "config_files") "cli_pylintrc"),
       (match ext_repo_selected cfg with
        | some p => os_path_join p "pylintrc"
        | none => os_path_join (os_path_join cfg.config_dir "config_files") "ext_pylintrc")))
    ∧ (_config_file_path cfg "flake8" = Except.ok
      ((if cfg.cli_repo_path != "" then os_path_join cfg.cli_repo_path ".flake8"
        else os_path_join (os_path_join cfg.config_dir "config_files") "cli.flake8"),
       (match ext_repo_selected cfg with
        | some p => os_path_join p ".flake8"
        | none => os_path_join (os_path_join cfg.config_dir "config_files") "ext.flake8")))
    ∧ (t ≠ "pylint" → t ≠ "flake8" →
        _config_file_path cfg t
          = Except.error "style_tyle value allows only: pylint, flake8.") := by
  refine ⟨rfl, rfl, fun h1 h2 => ?_⟩
  simp [_config_file_path, h1, h2]

/-- C7 witness: an unsupported identifier at a concrete store. -/
theorem config_file_path_resolution_witness :
    ("ruff" ≠ "pylint" ∧ "ruff" ≠ "flake8")
    ∧ _config_file_path ⟨"", "", "cfgdir"⟩ "ruff"
        = Except.error "style_tyle value allows only: pylint, flake8." :=
  ⟨⟨by decide, by decide⟩,
    (config_file_path_resolution ⟨"", "", "cfgdir"⟩ "ruff").2.2
      (by decide) (by decide)⟩

/-! ### Claim about per-tool status reporting (C3) -/

/-- C3 (code bug, source line 83): on a run whose pylint result carries an
error, the error branch displays `Pylint: PASSED` and then logs the
captured output and `Pylint: FAILED` — the displayed status line
contradicts the tool's outcome — while the process still exits with the
sum of the two exit codes (here 1 + 0). -/
theorem pylint_status_mismatch :
    (check_style envPylintFails none true true).displayed
      = ["Style Check", "Modules: acr\n", "Pylint: PASSED", "Flake8: PASSED\n"]
    ∧ (check_style envPylintFails none true true).logged
      = ["lint-output", "Pylint: FAILED\n"]
    ∧ (check_style envPylintFails none true true).outcome = Outcome.exited 1 := by
  decide

/-! ### Claim about the unguarded extension glob (C10) -/

theorem ext_paths_list_error_of_any (env : Env) (l : List (String × String))
    (h : l.any (fun kv => (env.globMatches (ext_glob_input kv.2)).isEmpty) = true) :
    ext_paths_list env l = Except.error RunErr.indexError := by
  induction l with
  | nil => simp at h
  | cons kv tl ih =>
    simp only [List.any_cons, Bool.or_eq_true] at h
    cases hg : env.globMatches (ext_glob_input kv.2) with
    | nil => simp [ext_paths_list, hg]
    | cons a as =>
      rcases h with h | h
      · rw [hg] at h; simp at h
      · simp [ext_paths_list, hg, ih h, Except.map]

theorem ext_paths_list_ok_of_all (env : Env) (l : List (String × String))
    (h : l.all (fun kv => !(env.globMatches (ext_glob_input kv.2)).isEmpty) = true) :
    ∃ ps, ext_paths_list env l = Except.ok ps := by
  induction l with
  | nil => exact ⟨[], rfl⟩
  | cons kv tl ih =>
    simp only [List.all_cons, Bool.and_eq_true] at h
    obtain ⟨h1, h2⟩ := h
    cases hg : env.globMatches (ext_glob_input kv.2) with
    | nil => rw [hg] at h1; simp at h1
    | cons a as =>
      obtain ⟨ps, hps⟩ := ih h2
      exact ⟨a :: ps, by simp [ext_paths_list, hg, hps, Except.map]⟩

/-- C10: `run_pylint` ends in an unguarded `IndexError` whenever some
extension entry's directory has no filesystem match for the fixed
extension-name prefix glob (it neither raises a usage error nor skips the
entry), and it is total — returning a combined result — whenever every
extension entry has at least one match. -/
theorem run_pylint_glob_index_error (env : Env) (modules : PathTable)
    (checkers : Option (List String)) (da : Bool) (en : Option (List String)) :
    ((modules.ext.any (fun kv =>
        (env.globMatches (ext_glob_input kv.2)).isEmpty)) = true →
      run_pylint env modules checkers da en = Except.error RunErr.indexError)
    ∧ ((modules.ext.all (fun kv =>
        !(env.globMatches (ext_glob_input kv.2)).isEmpty)) = true →
      ∃ v, run_pylint env modules checkers da en = Except.ok v) := by
  constructor
  · intro h
    have he := ext_paths_list_error_of_any env modules.ext h
    simp [run_pylint, he, Except.bind]
  · intro h
    obtain ⟨ps, hps⟩ := ext_paths_list_ok_of_all env modules.ext h
    simp [run_pylint, hps, _config_file_path, Except.mapError, Except.bind]

/-- C10 witness: one extension entry whose glob has no match makes
`run_pylint` raise `IndexError`. -/
theorem run_pylint_glob_index_error_witness :
    (oneExtTable.ext.any (fun kv =>
        (envNoGlob.globMatches (ext_glob_input kv.2)).isEmpty)) = true
    ∧ run_pylint envNoGlob oneExtTable none false none
        = Except.error RunErr.indexError :=
  ⟨by decide,
    (run_pylint_glob_index_error envNoGlob oneExtTable none false none).1 (by decide)⟩

end AzdevStyle
